import Mathlib

/-!
Shallow embedding of `src/components/DashboardCharts.jsx` (Sustentus
Dashboard Charts).  The component holds a list of mock project records and
derives, from user-selected dimensions (stage, time granularity, x-axis
grouping, clicked segment), the stacked-bar chart rows and the drill-down
table rows.  Record fields range over the fixed enumerations declared at the
top of the component (`INDUSTRIES`, `REGIONS`, `PRODUCTS`, `EXPERTS`,
`CSAT_VALUES` and the stage list), so each field is embedded as an inductive
enumeration; the JavaScript string stored in each field is recovered by the
`label` functions below.  Dates are embedded as rational numbers of
milliseconds since the epoch (`Date.getTime()`); the ISO-string round trip
in the source preserves this value, and every comparison in the source is a
numeric one on these timestamps.
-/

/-- The `INDUSTRIES` enumeration: `["Retail", "Manufacturing", "Accountants"]`. -/
inductive Industry where
  | Retail | Manufacturing | Accountants
deriving DecidableEq, Inhabited, Fintype

/-- The `REGIONS` enumeration, `Object.keys(REGION_COLORS)`:
`["EMEA", "APAC", "NA", "LATAM"]`. -/
inductive Region where
  | EMEA | APAC | NA | LATAM
deriving DecidableEq, Inhabited, Fintype

/-- The stage enumeration: `["Closed", "Active", "Proposal"]`. -/
inductive Stage where
  | Closed | Active | Proposal
deriving DecidableEq, Inhabited, Fintype

/-- The `PRODUCTS` enumeration: `["Core", "Sync", "Analytics", "AI"]`. -/
inductive Product where
  | Core | Sync | Analytics | AI
deriving DecidableEq, Inhabited, Fintype

/-- The `EXPERTS` enumeration: `["Ann", "Ben", "Chao", "Dee", "Evan"]`. -/
inductive Expert where
  | Ann | Ben | Chao | Dee | Evan
deriving DecidableEq, Inhabited, Fintype

/-- The `CSAT_VALUES` enumeration: four emoji strings, from happiest to
saddest (`"😀", "🙂", "😐", "🙁"`). -/
inductive Csat where
  | veryHappy | happy | neutral | sad
deriving DecidableEq, Inhabited, Fintype

/-- The `granularity` state: `"month" | "quarter" | "year"`. -/
inductive Granularity where
  | month | quarter | year
deriving DecidableEq, Inhabited, Fintype

/-- The `xAxisType` state:
`"Industry" | "Region" | "Product" | "Expert" | "CSAT"`. -/
inductive XAxisType where
  | Industry | Region | Product | Expert | CSAT
deriving DecidableEq, Inhabited, Fintype

/-- The JavaScript string of an `Industry` value. -/
def Industry.label : Industry → String
  | .Retail => "Retail"
  | .Manufacturing => "Manufacturing"
  | .Accountants => "Accountants"

/-- The JavaScript string of a `Region` value. -/
def Region.label : Region → String
  | .EMEA => "EMEA"
  | .APAC => "APAC"
  | .NA => "NA"
  | .LATAM => "LATAM"

/-- The JavaScript string of a `Stage` value. -/
def Stage.label : Stage → String
  | .Closed => "Closed"
  | .Active => "Active"
  | .Proposal => "Proposal"

/-- The JavaScript string of a `Product` value. -/
def Product.label : Product → String
  | .Core => "Core"
  | .Sync => "Sync"
  | .Analytics => "Analytics"
  | .AI => "AI"

/-- The JavaScript string of an `Expert` value. -/
def Expert.label : Expert → String
  | .Ann => "Ann"
  | .Ben => "Ben"
  | .Chao => "Chao"
  | .Dee => "Dee"
  | .Evan => "Evan"

/-- The JavaScript string of a `Csat` value. -/
def Csat.label : Csat → String
  | .veryHappy => "😀"
  | .happy => "🙂"
  | .neutral => "😐"
  | .sad => "🙁"

/-- The list `INDUSTRIES = ["Retail", "Manufacturing", "Accountants"]`. -/
def INDUSTRIES : List Industry := [.Retail, .Manufacturing, .Accountants]

/-- The list `REGIONS = Object.keys(REGION_COLORS) = ["EMEA", "APAC", "NA", "LATAM"]`. -/
def REGIONS : List Region := [.EMEA, .APAC, .NA, .LATAM]

/-- The list `PRODUCTS = ["Core", "Sync", "Analytics", "AI"]`. -/
def PRODUCTS : List Product := [.Core, .Sync, .Analytics, .AI]

/-- The list `EXPERTS = ["Ann", "Ben", "Chao", "Dee", "Evan"]`. -/
def EXPERTS : List Expert := [.Ann, .Ben, .Chao, .Dee, .Evan]

/-- The list `CSAT_VALUES = ["😀", "🙂", "😐", "🙁"]`. -/
def CSAT_VALUES : List Csat := [.veryHappy, .happy, .neutral, .sad]

/-- The `stages` list inside `createMockData`: `["Closed", "Active", "Proposal"]`. -/
def STAGES : List Stage := [.Closed, .Active, .Proposal]

/-- A mock project record, as pushed by `createMockData`:
`{id, project, industry, region, stage, date, product, expert, csat}`.
`date` is the timestamp (`Date.getTime()` milliseconds) behind the stored
ISO string. -/
structure Record where
  id : Nat
  project : String
  industry : Industry
  region : Region
  stage : Stage
  date : ℚ
  product : Product
  expert : Expert
  csat : Csat
deriving DecidableEq

/-- A value on the category axis.  In the source every axis value is a string
drawn from one of the five enumerations; the enumerations are pairwise
disjoint as string sets, so a sum type with decidable equality embeds the
string comparisons faithfully. -/
inductive XValue where
  | industry (i : Industry)
  | region (r : Region)
  | product (p : Product)
  | expert (e : Expert)
  | csat (c : Csat)
deriving DecidableEq

/-- The JavaScript string of an x-axis value. -/
def XValue.label : XValue → String
  | .industry i => i.label
  | .region r => r.label
  | .product p => p.label
  | .expert e => e.label
  | .csat c => c.label

/-- The helper `getXAxisValues()`: the enumeration of the currently selected x-axis
dimension (`switch (xAxisType)` returning `INDUSTRIES` / `REGIONS` /
`PRODUCTS` / `EXPERTS` / `CSAT_VALUES`), injected into the axis-value sum
type. -/
def getXAxisValues : XAxisType → List XValue
  | .Industry => INDUSTRIES.map .industry
  | .Region => REGIONS.map .region
  | .Product => PRODUCTS.map .product
  | .Expert => EXPERTS.map .expert
  | .CSAT => CSAT_VALUES.map .csat

/-- The window `timeWindowMonths = granularity === "month" ? 3 : granularity === "quarter" ? 9 : 12`. -/
def timeWindowMonths : Granularity → Nat
  | .month => 3
  | .quarter => 9
  | .year => 12

/-- The `filtered` memo:
`records.filter(r => r.stage === stage && new Date(r.date) >= cutoff)`,
with `cutoff = addMonths(new Date(), -timeWindowMonths)` passed in as a
timestamp.  The spec names this function `filterRecords`. -/
def filterRecords (records : List Record) (stage : Stage) (cutoff : ℚ) : List Record :=
  records.filter fun r => decide (r.stage = stage) && decide (cutoff ≤ r.date)

/-- The `switch (xAxisType)` bodies in both `chartData` and `tableRows`:
compare the record's field for the current dimension against an axis value
(`r.industry === value`, `r.region === value`, ...); the unreachable
`default` branch returns `false`. -/
def matchesX (t : XAxisType) (r : Record) (v : XValue) : Bool :=
  match t with
  | .Industry => decide (XValue.industry r.industry = v)
  | .Region => decide (XValue.region r.region = v)
  | .Product => decide (XValue.product r.product = v)
  | .Expert => decide (XValue.expert r.expert = v)
  | .CSAT => decide (XValue.csat r.csat = v)

/-- One chart row `{ [xAxisType]: value, EMEA: n, APAC: n, NA: n, LATAM: n }`:
the axis value stored under the dimension key, and one numeric field per
region (the source fills those fields with `REGIONS.forEach`, embedded here
as a function out of `Region`). -/
structure ChartRow where
  value : XValue
  counts : Region → Nat

/-- The `chartData` memo: one row per value of the current dimension, whose
field for region `reg` is
`filtered.filter(r => <field matches value> && r.region === reg).length`.
The spec names this function `aggregate`. -/
def chartData (t : XAxisType) (filtered : List Record) : List ChartRow :=
  (getXAxisValues t).map fun v =>
    { value := v
      counts := fun reg =>
        (filtered.filter fun r => matchesX t r v && decide (r.region = reg)).length }

/-- The `selected` state `{ xAxisValue, region }` set by a bar's `onClick`.
`xAxisValue` is `chartData[idx]?.[xAxisType]`, which is `undefined` when the
index is out of range, hence an `Option`. -/
structure Selection where
  xAxisValue : Option XValue
  region : Region
deriving DecidableEq

/-- The `tableRows` memo: `[]` when `selected` is `null`, otherwise
`filtered.filter(r => matchesXAxis && r.region === selected.region)` where
`matchesXAxis` is the dimension-field comparison against
`selected.xAxisValue` (`false` when that value is `undefined`, as a JS
`===` against `undefined` is).  The spec names this function `drillDown`. -/
def tableRows (filtered : List Record) (t : XAxisType) (selected : Option Selection) :
    List Record :=
  match selected with
  | none => []
  | some sel =>
      filtered.filter fun r =>
        (match sel.xAxisValue with
         | some v => matchesX t r v
         | none => false) && decide (r.region = sel.region)

/-- A bar segment's `onClick`: reads `chartData[idx]?.[xAxisType]` (the
clicked row's axis value) and builds the selection
`{ xAxisValue, region: reg }` passed to `setSelected`. -/
def barClick (t : XAxisType) (filtered : List Record) (idx : Nat) (reg : Region) :
    Selection :=
  { xAxisValue := ((chartData t filtered).get? idx).map (·.value), region := reg }

/-- The component state: `records`, `stage`, `granularity`, `selected`,
`xAxisType`, `isLoading`. -/
structure DashState where
  records : List Record
  stage : Stage
  granularity : Granularity
  selected : Option Selection
  xAxisType : XAxisType
  isLoading : Bool

/-- The synchronous phase of `handleXAxisChange`: `setIsLoading(true)`,
`setXAxisType(newXAxisType)`, `setSelected(null)`.  The `setIsLoading(false)`
that follows the 500 ms cosmetic timer is a separate later event and not part
of this transition. -/
def handleXAxisChange (s : DashState) (newXAxisType : XAxisType) : DashState :=
  { s with isLoading := true, xAxisType := newXAxisType, selected := none }

/-- The helper `randChoice(arr) = arr[Math.floor(Math.random() * arr.length)]`, with the
`Math.random()` draw `u ∈ [0, 1)` passed explicitly.  The index is in range
for every such draw on a non-empty array; `getD` supplies `default` in the
unreachable out-of-range case. -/
def randChoice {α : Type} [Inhabited α] (arr : List α) (u : ℚ) : α :=
  arr.getD (⌊u * arr.length⌋).toNat default

/-- Iteration `i` of the `createMockData` loop.  `u` is the sequence of
`Math.random()` draws; iteration `i` consumes draws `7*i .. 7*i+6` in source
order (date, industry, region, stage, product, expert, csat).  The `id`
counter starts at `1` and is bumped once per iteration, so the record of
iteration `i` reads `id: id++` as `i + 1` while `` project: `PRJ-${id}` ``
formats the already-incremented counter `i + 2`. -/
def mockRecord (u : Nat → ℚ) (today start : ℚ) (i : Nat) : Record :=
  { id := i + 1
    project := "PRJ-" ++ toString (i + 2)
    industry := randChoice INDUSTRIES (u (7 * i + 1))
    region := randChoice REGIONS (u (7 * i + 2))
    stage := randChoice STAGES (u (7 * i + 3))
    date := start + u (7 * i) * (today - start)
    product := randChoice PRODUCTS (u (7 * i + 4))
    expert := randChoice EXPERTS (u (7 * i + 5))
    csat := randChoice CSAT_VALUES (u (7 * i + 6)) }

/-- The generator `createMockData`: the `for (let i = 0; i < 220; i++)` loop pushing one
record per iteration.  `today = new Date()` and
`start = addMonths(today, -monthsBack)` are passed as timestamps (for the
positive lookbacks used by the component, `start ≤ today`).  Both variants of
the component share this generator shape and size. -/
def createMockData (u : Nat → ℚ) (today start : ℚ) : List Record :=
  (List.range 220).map (mockRecord u today start)

/-- The all-zero draw sequence, a concrete valid `Math.random()` trace. -/
def zeroDraws : Nat → ℚ := fun _ => 0

/-- A concrete record used to instantiate theorems: an Active Retail EMEA
project dated at timestamp 5. -/
def sampleRecord : Record :=
  { id := 1, project := "PRJ-2", industry := .Retail, region := .EMEA,
    stage := .Active, date := 5, product := .Core, expert := .Ann,
    csat := .veryHappy }

example : filterRecords [sampleRecord] .Active 0 = [sampleRecord] := by decide
example : tableRows [sampleRecord] .Industry
    (some ⟨some (.industry .Retail), .EMEA⟩) = [sampleRecord] := by decide
example : (barClick .Industry [] 0 .EMEA).xAxisValue
    = some (.industry .Retail) := by decide
example : ((chartData .Industry [sampleRecord]).get ⟨0, by decide⟩).counts .EMEA = 1 := by
  decide
example : (createMockData zeroDraws 0 0).length = 220 := by
  simp [createMockData]

/-- C2: `filterRecords` keeps exactly the records whose stage equals the
given stage and whose date is at or after the cutoff. -/
theorem filterRecords_mem_iff (rs : List Record) (s : Stage) (c : ℚ) (r : Record) :
    r ∈ filterRecords rs s c ↔ r ∈ rs ∧ r.stage = s ∧ c ≤ r.date := by
  simp [filterRecords, List.mem_filter, and_assoc]

/-- C5: the grouping-change transition clears the selection and turns the
loading flag on, leaving the record set, stage and granularity unchanged. -/
theorem handleXAxisChange_spec (st : DashState) (newX : XAxisType) :
    (handleXAxisChange st newX).selected = none
    ∧ (handleXAxisChange st newX).isLoading = true
    ∧ (handleXAxisChange st newX).records = st.records
    ∧ (handleXAxisChange st newX).stage = st.stage
    ∧ (handleXAxisChange st newX).granularity = st.granularity :=
  ⟨rfl, rfl, rfl, rfl, rfl⟩

/-- C6: the derivation pipeline is deterministic (equal inputs give equal
outputs) and the two filtering stages are idempotent: re-filtering the
filtered list with the same stage and cutoff, or re-drilling the drill-down
result with the same selection, changes nothing. -/
theorem pipeline_pure_idempotent :
    (∀ (rs : List Record) (s : Stage) (c : ℚ), filterRecords rs s c = filterRecords rs s c)
    ∧ (∀ (t : XAxisType) (fl : List Record), chartData t fl = chartData t fl)
    ∧ (∀ (fl : List Record) (t : XAxisType) (sel : Option Selection),
        tableRows fl t sel = tableRows fl t sel)
    ∧ (∀ (rs : List Record) (s : Stage) (c : ℚ),
        filterRecords (filterRecords rs s c) s c = filterRecords rs s c)
    ∧ (∀ (fl : List Record) (t : XAxisType) (sel : Option Selection),
        tableRows (tableRows fl t sel) t sel = tableRows fl t sel) := by
  refine ⟨fun _ _ _ => rfl, fun _ _ => rfl, fun _ _ _ => rfl, ?_, ?_⟩
  · intro rs s c
    simp only [filterRecords, List.filter_filter]
    exact List.filter_congr fun x _ => Bool.and_self _
  · intro fl t sel
    cases sel with
    | none => rfl
    | some sel =>
      simp only [tableRows, List.filter_filter]
      exact List.filter_congr fun x _ => Bool.and_self _

/-- C7: with an empty selection the table-row derivation returns exactly the
empty list, and the derivations are total on the enumerated inputs: the
chart always has one row per axis value and every granularity maps to a
positive lookback window. -/
theorem emptySelection_total (fl : List Record) (t : XAxisType) :
    tableRows fl t none = []
    ∧ (chartData t fl).length = (getXAxisValues t).length
    ∧ ∀ g : Granularity, 0 < timeWindowMonths g := by
  refine ⟨rfl, by simp [chartData], fun g => by cases g <;> decide⟩

/-- C9: when the grouping dimension is `Region`, every chart row's count is
zero in each region column other than the row's own region value. -/
theorem regionChart_diagonal (fl : List Record) (row : ChartRow) (g : Region)
    (hrow : row ∈ chartData .Region fl) (hne : row.value ≠ XValue.region g) :
    row.counts g = 0 := by
  simp only [chartData] at hrow
  rcases List.mem_map.1 hrow with ⟨v, _hv, rfl⟩
  simp only at hne ⊢
  rw [List.length_eq_zero, List.filter_eq_nil_iff]
  intro r _hr
  simp only [matchesX, Bool.and_eq_true, decide_eq_true_eq, not_and]
  intro h1 h2
  exact hne (by rw [← h1, h2])

/-- Witness for C9 at a concrete input: the first `Region` chart row (value
EMEA) over an empty filtered list has a zero APAC count. -/
theorem regionChart_diagonal_witness :
    (((chartData XAxisType.Region []).get ⟨0, by decide⟩).value ≠ XValue.region Region.APAC)
    ∧ ((chartData XAxisType.Region []).get ⟨0, by decide⟩).counts Region.APAC = 0 :=
  ⟨by decide, regionChart_diagonal [] _ Region.APAC (List.get_mem _ _ _) (by decide)⟩

/-- C4 counterexample: clicking the EMEA segment at index 0 (the "Retail"
bar) with grouping "Industry" does NOT produce a selection whose axis value
is the string "Retretail". -/
theorem barClick_retretail_counterexample :
    ¬ ((barClick XAxisType.Industry (filterRecords [] Stage.Active 0) 0
          Region.EMEA).xAxisValue.map XValue.label = some "Retretail") := by
  decide

/-- C4 (amended): clicking the EMEA segment of the "Retail" bar with
grouping "Industry" sets the selection to value "Retail" (not "Retretail"),
region EMEA, and the table then shows exactly the records of the filtered
set (current stage, date at or after the cutoff) whose industry is Retail
and whose region is EMEA. -/
theorem barClick_retail_spec (rs : List Record) (s : Stage) (c : ℚ) :
    barClick XAxisType.Industry (filterRecords rs s c) 0 Region.EMEA
      = ⟨some (XValue.industry Industry.Retail), Region.EMEA⟩
    ∧ ∀ r, r ∈ tableRows (filterRecords rs s c) XAxisType.Industry
          (some (barClick XAxisType.Industry (filterRecords rs s c) 0 Region.EMEA))
        ↔ r ∈ rs ∧ r.industry = Industry.Retail ∧ r.region = Region.EMEA
            ∧ r.stage = s ∧ c ≤ r.date := by
  have hsel : barClick XAxisType.Industry (filterRecords rs s c) 0 Region.EMEA
      = ⟨some (XValue.industry Industry.Retail), Region.EMEA⟩ := by
    simp [barClick, chartData, getXAxisValues, INDUSTRIES]
  refine ⟨hsel, fun r => ?_⟩
  rw [hsel]
  simp only [tableRows, matchesX, filterRecords, List.mem_filter,
    Bool.and_eq_true, decide_eq_true_eq, XValue.industry.injEq]
  tauto

/-- The helper `randChoice` picks an element of its (non-empty) array whenever the draw
lies in `[0, 1)`, since `Math.floor(u * arr.length)` is then in range. -/
lemma randChoice_mem {α : Type} [Inhabited α] (arr : List α) (u : ℚ)
    (hne : arr ≠ []) (h0 : 0 ≤ u) (h1 : u < 1) : randChoice arr u ∈ arr := by
  have hpos : 0 < arr.length := List.length_pos.2 hne
  have hlen : (0 : ℚ) < (arr.length : ℚ) := by exact_mod_cast hpos
  have hflt : ⌊u * (arr.length : ℚ)⌋ < (arr.length : ℤ) := by
    rw [Int.floor_lt]
    push_cast
    calc u * (arr.length : ℚ) < 1 * (arr.length : ℚ) :=
          mul_lt_mul_of_pos_right h1 hlen
      _ = (arr.length : ℚ) := one_mul _
  have hfl0 : 0 ≤ ⌊u * (arr.length : ℚ)⌋ :=
    Int.floor_nonneg.2 (mul_nonneg h0 (le_of_lt hlen))
  have hnat : (⌊u * (arr.length : ℚ)⌋).toNat < arr.length := by omega
  rw [randChoice, List.getD_eq_getElem?_getD, List.getElem?_eq_getElem hnat]
  exact List.getElem_mem hnat

set_option maxRecDepth 20000 in
/-- No loop index below 220 yields the label `"PRJ-1"`: the formatted counter
is `i + 2 ≥ 2`. -/
lemma prjLabel_ne_one : ∀ i < 220, "PRJ-" ++ toString (i + 2) ≠ "PRJ-1" := by
  decide

/-- C10: in every generated dataset the ids are exactly 1..220 in order and
without duplicates, and each record's project label is `"PRJ-"` followed by
its id plus one — so the labels run PRJ-2 through PRJ-221 and PRJ-1 never
occurs, the counter being incremented before the label is formatted. -/
theorem createMockData_ids (u : Nat → ℚ) (today start : ℚ) :
    ((createMockData u today start).map (fun r => r.id)
        = (List.range 220).map (fun i => i + 1))
    ∧ ((createMockData u today start).map (fun r => r.id)).Nodup
    ∧ ∀ r ∈ createMockData u today start,
        r.project = "PRJ-" ++ toString (r.id + 1)
          ∧ 1 ≤ r.id ∧ r.id ≤ 220 ∧ r.project ≠ "PRJ-1" := by
  have hmap : (createMockData u today start).map (fun r => r.id)
      = (List.range 220).map (fun i => i + 1) := by
    simp only [createMockData, List.map_map]
    rfl
  refine ⟨hmap, ?_, ?_⟩
  · rw [hmap]
    exact (List.nodup_range 220).map fun a b h => by omega
  · intro r hr
    simp only [createMockData] at hr
    rcases List.mem_map.1 hr with ⟨i, hi, rfl⟩
    have hi' : i < 220 := List.mem_range.1 hi
    exact ⟨rfl, by simp [mockRecord], by simp [mockRecord]; omega,
      prjLabel_ne_one i hi'⟩

/-- Witness for C10 at a concrete input: the first record of a dataset
generated from the all-zero draw sequence. -/
theorem createMockData_ids_witness :
    (mockRecord zeroDraws 0 0 0 ∈ createMockData zeroDraws 0 0)
    ∧ ((mockRecord zeroDraws 0 0 0).project
          = "PRJ-" ++ toString ((mockRecord zeroDraws 0 0 0).id + 1)
        ∧ 1 ≤ (mockRecord zeroDraws 0 0 0).id
        ∧ (mockRecord zeroDraws 0 0 0).id ≤ 220
        ∧ (mockRecord zeroDraws 0 0 0).project ≠ "PRJ-1") :=
  have hmem : mockRecord zeroDraws 0 0 0 ∈ createMockData zeroDraws 0 0 :=
    List.mem_map_of_mem _ (List.mem_range.2 (by norm_num))
  ⟨hmem, (createMockData_ids zeroDraws 0 0).2.2 _ hmem⟩

/-- C8: with every `Math.random()` draw in `[0, 1)` and the lookback start
at or before `today` (as `addMonths(today, -monthsBack)` is for the
component's positive lookbacks), `createMockData` returns exactly 220
records, every enumerated field of every record is a member of its fixed
enumeration, and every record's date lies within `[start, today]`. -/
theorem createMockData_spec (u : Nat → ℚ) (today start : ℚ)
    (hu : ∀ n, 0 ≤ u n ∧ u n < 1) (hts : start ≤ today) :
    (createMockData u today start).length = 220
    ∧ ∀ r ∈ createMockData u today start,
        r.industry ∈ INDUSTRIES ∧ r.region ∈ REGIONS ∧ r.stage ∈ STAGES
          ∧ r.product ∈ PRODUCTS ∧ r.expert ∈ EXPERTS ∧ r.csat ∈ CSAT_VALUES
          ∧ start ≤ r.date ∧ r.date ≤ today := by
  refine ⟨by simp [createMockData], ?_⟩
  intro r hr
  simp only [createMockData] at hr
  rcases List.mem_map.1 hr with ⟨i, _hi, rfl⟩
  have hd0 : (0 : ℚ) ≤ u (7 * i) * (today - start) :=
    mul_nonneg (hu _).1 (by linarith)
  have hd1 : u (7 * i) * (today - start) ≤ today - start := by
    have := mul_le_mul_of_nonneg_right (le_of_lt (hu (7 * i)).2) (by linarith :
      (0 : ℚ) ≤ today - start)
    linarith [one_mul (today - start)]
  refine ⟨randChoice_mem _ _ (by decide) (hu _).1 (hu _).2,
    randChoice_mem _ _ (by decide) (hu _).1 (hu _).2,
    randChoice_mem _ _ (by decide) (hu _).1 (hu _).2,
    randChoice_mem _ _ (by decide) (hu _).1 (hu _).2,
    randChoice_mem _ _ (by decide) (hu _).1 (hu _).2,
    randChoice_mem _ _ (by decide) (hu _).1 (hu _).2,
    ?_, ?_⟩
  · simp only [mockRecord]
    linarith
  · simp only [mockRecord]
    linarith

/-- Witness for C8 at a concrete input: the all-zero draw sequence with
`today = start = 0`. -/
theorem createMockData_spec_witness :
    ((∀ n, 0 ≤ zeroDraws n ∧ zeroDraws n < 1) ∧ (0 : ℚ) ≤ 0)
    ∧ ((createMockData zeroDraws 0 0).length = 220
        ∧ ∀ r ∈ createMockData zeroDraws 0 0,
            r.industry ∈ INDUSTRIES ∧ r.region ∈ REGIONS ∧ r.stage ∈ STAGES
              ∧ r.product ∈ PRODUCTS ∧ r.expert ∈ EXPERTS ∧ r.csat ∈ CSAT_VALUES
              ∧ (0 : ℚ) ≤ r.date ∧ r.date ≤ 0) :=
  have hu : ∀ n, 0 ≤ zeroDraws n ∧ zeroDraws n < 1 := fun _ => by
    constructor <;> norm_num [zeroDraws]
  ⟨⟨hu, le_refl 0⟩, createMockData_spec zeroDraws 0 0 hu (le_refl 0)⟩

/-- C3: for any selection carrying an axis value and a region, the
drill-down table rows are a sublist of the `filterRecords` result, and each
table row simultaneously matches the current stage, lies in the time window,
matches the selected dimension value, and has the selected region. -/
theorem drillDown_subset (rs : List Record) (s : Stage) (c : ℚ) (t : XAxisType)
    (v : XValue) (g : Region) :
    (tableRows (filterRecords rs s c) t (some ⟨some v, g⟩) ⊆ filterRecords rs s c)
    ∧ ∀ r, r ∈ tableRows (filterRecords rs s c) t (some ⟨some v, g⟩) →
        r.stage = s ∧ c ≤ r.date ∧ matchesX t r v = true ∧ r.region = g := by
  constructor
  · intro a ha
    exact List.mem_of_mem_filter ha
  · intro r hr
    simp only [tableRows, filterRecords, List.mem_filter, Bool.and_eq_true,
      decide_eq_true_eq] at hr
    exact ⟨hr.1.2.1, hr.1.2.2, hr.2.1, hr.2.2⟩

/-- Witness for C3 at a concrete input: the sample record survives the
drill-down on (Retail, EMEA) over its own singleton record set. -/
theorem drillDown_subset_witness :
    (sampleRecord ∈ tableRows (filterRecords [sampleRecord] Stage.Active 0)
        XAxisType.Industry (some ⟨some (XValue.industry Industry.Retail), Region.EMEA⟩))
    ∧ (sampleRecord ∈ filterRecords [sampleRecord] Stage.Active 0)
    ∧ (sampleRecord.stage = Stage.Active ∧ (0 : ℚ) ≤ sampleRecord.date
        ∧ matchesX XAxisType.Industry sampleRecord (XValue.industry Industry.Retail) = true
        ∧ sampleRecord.region = Region.EMEA) :=
  ⟨by decide,
   (drillDown_subset [sampleRecord] Stage.Active 0 XAxisType.Industry
      (XValue.industry Industry.Retail) Region.EMEA).1 (by decide),
   (drillDown_subset [sampleRecord] Stage.Active 0 XAxisType.Industry
      (XValue.industry Industry.Retail) Region.EMEA).2 sampleRecord (by decide)⟩

/-- Sums of pointwise sums of `Nat`-valued maps split. -/
lemma sum_map_add_nat {β : Type} (l : List β) (f g : β → Nat) :
    (l.map fun b => f b + g b).sum = (l.map f).sum + (l.map g).sum := by
  induction l with
  | nil => simp
  | cons x xs ih =>
    simp only [List.map_cons, List.sum_cons, ih]
    omega

/-- Summing the indicator of equality with `b` over a list counts `b`. -/
lemma sum_map_ite_count {β : Type} [DecidableEq β] (l : List β) (b : β) :
    (l.map fun g => if b = g then 1 else 0).sum = l.count b := by
  induction l with
  | nil => simp
  | cons x xs ih =>
    by_cases h : b = x
    · subst h
      simp only [List.map_cons, List.sum_cons, if_pos rfl, List.count_cons, ih,
        beq_self_eq_true, if_true]
      omega
    · simp [List.count_cons, h, ih]

/-- An element whose key occurs once among the grouping values and whose
region occurs once among the regions contributes exactly one to the grid of
indicator sums. -/
lemma unit_contribution {γ α β : Type} [DecidableEq α] [DecidableEq β]
    (vals : List α) (regs : List β) (key : γ → α) (rg : γ → β) (x : γ)
    (hv : vals.count (key x) = 1) (hr : regs.count (rg x) = 1) :
    (vals.map fun v =>
      (regs.map fun g => if key x = v ∧ rg x = g then 1 else 0).sum).sum = 1 := by
  have hinner : ∀ v, (regs.map fun g => if key x = v ∧ rg x = g then 1 else 0).sum
      = if key x = v then 1 else 0 := by
    intro v
    by_cases h : key x = v
    · rw [if_pos h]
      have hfun : (fun g => if key x = v ∧ rg x = g then 1 else 0)
          = fun g => if rg x = g then 1 else 0 := by
        funext g
        simp [h]
      rw [hfun, sum_map_ite_count, hr]
    · rw [if_neg h]
      have hfun : (fun g => if key x = v ∧ rg x = g then 1 else 0)
          = fun _ => (0 : Nat) := by
        funext g
        simp [h]
      simp [hfun]
  calc (vals.map fun v =>
          (regs.map fun g => if key x = v ∧ rg x = g then 1 else 0).sum).sum
      = (vals.map fun v => if key x = v then 1 else 0).sum := by
        simp only [hinner]
    _ = vals.count (key x) := sum_map_ite_count vals (key x)
    _ = 1 := hv

/-- Exact-partition lemma: if every element's key occurs exactly once among
the grouping values and its region exactly once among the regions, the grid
of filtered lengths sums to the length of the list. -/
lemma filter_length_partition {γ α β : Type} [DecidableEq α] [DecidableEq β]
    (vals : List α) (regs : List β) (key : γ → α) (rg : γ → β) (l : List γ)
    (hv : ∀ x ∈ l, vals.count (key x) = 1) (hr : ∀ x ∈ l, regs.count (rg x) = 1) :
    (vals.map fun v =>
        (regs.map fun g =>
          (l.filter fun x => decide (key x = v) && decide (rg x = g)).length).sum).sum
      = l.length := by
  induction l with
  | nil => simp
  | cons x xs ih =>
    have hv' : ∀ y ∈ xs, vals.count (key y) = 1 :=
      fun y hy => hv y (List.mem_cons_of_mem _ hy)
    have hr' : ∀ y ∈ xs, regs.count (rg y) = 1 :=
      fun y hy => hr y (List.mem_cons_of_mem _ hy)
    have hcons : ∀ (v : α) (g : β),
        ((x :: xs).filter fun y => decide (key y = v) && decide (rg y = g)).length
          = (if key x = v ∧ rg x = g then 1 else 0)
            + (xs.filter fun y => decide (key y = v) && decide (rg y = g)).length := by
      intro v g
      have hb : ((decide (key x = v) && decide (rg x = g)) = true)
          ↔ (key x = v ∧ rg x = g) := by
        simp
      rw [List.filter_cons]
      by_cases h : key x = v ∧ rg x = g
      · rw [if_pos (hb.2 h), if_pos h, List.length_cons]
        omega
      · rw [if_neg (fun hc => h (hb.1 hc)), if_neg h]
        omega
    simp only [hcons]
    have hsplit : ∀ v,
        (regs.map fun g => (if key x = v ∧ rg x = g then 1 else 0)
          + (xs.filter fun y => decide (key y = v) && decide (rg y = g)).length).sum
        = (regs.map fun g => if key x = v ∧ rg x = g then 1 else 0).sum
          + (regs.map fun g =>
              (xs.filter fun y => decide (key y = v) && decide (rg y = g)).length).sum :=
      fun v => sum_map_add_nat regs _ _
    simp only [hsplit]
    rw [sum_map_add_nat vals
      (fun v => (regs.map fun g => if key x = v ∧ rg x = g then 1 else 0).sum)
      (fun v => (regs.map fun g =>
        (xs.filter fun y => decide (key y = v) && decide (rg y = g)).length).sum)]
    rw [unit_contribution vals regs key rg x (hv x (List.mem_cons_self x xs))
      (hr x (List.mem_cons_self x xs))]
    rw [ih hv' hr', List.length_cons]
    omega

/-- Each industry occurs exactly once on the Industry axis. -/
lemma count_industry_axis :
    ∀ y : Industry, (getXAxisValues .Industry).count (XValue.industry y) = 1 := by
  decide

/-- Each region occurs exactly once on the Region axis. -/
lemma count_region_axis :
    ∀ y : Region, (getXAxisValues .Region).count (XValue.region y) = 1 := by
  decide

/-- Each product occurs exactly once on the Product axis. -/
lemma count_product_axis :
    ∀ y : Product, (getXAxisValues .Product).count (XValue.product y) = 1 := by
  decide

/-- Each expert occurs exactly once on the Expert axis. -/
lemma count_expert_axis :
    ∀ y : Expert, (getXAxisValues .Expert).count (XValue.expert y) = 1 := by
  decide

/-- Each CSAT symbol occurs exactly once on the CSAT axis. -/
lemma count_csat_axis :
    ∀ y : Csat, (getXAxisValues .CSAT).count (XValue.csat y) = 1 := by
  decide

/-- Each region occurs exactly once in `REGIONS`. -/
lemma count_region_list : ∀ y : Region, REGIONS.count y = 1 := by
  decide

set_option maxHeartbeats 1600000 in
/-- The grand total of the chart grid is the number of filtered records, for
every grouping dimension. -/
lemma chart_total (t : XAxisType) (fl : List Record) :
    ((chartData t fl).map fun row => (REGIONS.map row.counts).sum).sum = fl.length := by
  cases t with
  | Industry =>
    have h := filter_length_partition (getXAxisValues .Industry) REGIONS
      (fun r => XValue.industry r.industry) (fun r => r.region) fl
      (fun x _ => count_industry_axis x.industry) (fun x _ => count_region_list x.region)
    simpa [chartData, matchesX, List.map_map, Function.comp] using h
  | Region =>
    have h := filter_length_partition (getXAxisValues .Region) REGIONS
      (fun r => XValue.region r.region) (fun r => r.region) fl
      (fun x _ => count_region_axis x.region) (fun x _ => count_region_list x.region)
    simpa [chartData, matchesX, List.map_map, Function.comp] using h
  | Product =>
    have h := filter_length_partition (getXAxisValues .Product) REGIONS
      (fun r => XValue.product r.product) (fun r => r.region) fl
      (fun x _ => count_product_axis x.product) (fun x _ => count_region_list x.region)
    simpa [chartData, matchesX, List.map_map, Function.comp] using h
  | Expert =>
    have h := filter_length_partition (getXAxisValues .Expert) REGIONS
      (fun r => XValue.expert r.expert) (fun r => r.region) fl
      (fun x _ => count_expert_axis x.expert) (fun x _ => count_region_list x.region)
    simpa [chartData, matchesX, List.map_map, Function.comp] using h
  | CSAT =>
    have h := filter_length_partition (getXAxisValues .CSAT) REGIONS
      (fun r => XValue.csat r.csat) (fun r => r.region) fl
      (fun x _ => count_csat_axis x.csat) (fun x _ => count_region_list x.region)
    simpa [chartData, matchesX, List.map_map, Function.comp] using h

/-- C1: the chart is an exact partition of the filtered record set.  The sum
over all chart rows of all four region counts equals the number of filtered
records, and the row at each axis index carries, for each region, exactly
the number of filtered records matching that axis value and that region. -/
theorem chart_partition (rs : List Record) (s : Stage) (c : ℚ) (t : XAxisType) :
    (((chartData t (filterRecords rs s c)).map
        fun row => (REGIONS.map row.counts).sum).sum
      = (filterRecords rs s c).length)
    ∧ ∀ (i : Nat) (g : Region),
        ((chartData t (filterRecords rs s c))[i]?).map (fun row => row.counts g)
          = ((getXAxisValues t)[i]?).map (fun v =>
              ((filterRecords rs s c).filter fun r =>
                matchesX t r v && decide (r.region = g)).length) := by
  refine ⟨chart_total t _, fun i g => ?_⟩
  simp only [chartData, List.getElem?_map, Option.map_map]
  rfl
